import Mathlib

/-!
Verification of the demo-data provisioning and compaction pipeline of the
On-Call-Burnout-Detector backend: a shallow embedding of
`backend/slim_mock_data.py` (the compaction transform) and
`backend/app/services/demo_analysis_service.py` (template cache and demo
provisioner), with theorems about their contracts.

Python JSON-like data is modelled by the inductive `JVal`; Python code that
can raise is modelled in `Except String`.
-/

/-- A Python/JSON value as the two modules manipulate it: `None`, booleans,
numbers, strings, lists and dicts (ordered key/value pair lists, as Python
dicts preserve insertion order). -/
inductive JVal where
  | null : JVal
  | bool (b : Bool) : JVal
  | num (n : Int) : JVal
  | str (s : String) : JVal
  | arr (elems : List JVal) : JVal
  | obj (fields : List (String × JVal)) : JVal

namespace JVal

/-- Python truthiness, `bool(v)`: `None`, `False`, `0`, `""`, `[]`, `{}` are
falsy, everything else truthy. -/
def truthy : JVal → Bool
  | .null => false
  | .bool b => b
  | .num n => n != 0
  | .str s => !s.isEmpty
  | .arr elems => !elems.isEmpty
  | .obj fs => !fs.isEmpty

/-- `isinstance(v, dict)` -/
def isDict : JVal → Bool
  | .obj _ => true
  | _ => false

/-- `isinstance(v, str)` -/
def isStr : JVal → Bool
  | .str _ => true
  | _ => false

/-- The key/value pairs of a dict (`[]` for non-dicts). -/
def fields : JVal → List (String × JVal)
  | .obj fs => fs
  | _ => []

end JVal

/-- First-match association lookup over a dict's ordered pairs:
`kvs[k]` / the backing of `kvs.get(k)`. -/
def objLookup (kvs : List (String × JVal)) (k : String) : Option JVal :=
  (kvs.find? (fun p => p.1 == k)).map (·.2)

/-- Python `d.get(k, default)`. -/
def pyGet (kvs : List (String × JVal)) (k : String) (d : JVal) : JVal :=
  (objLookup kvs k).getD d

/-- Python dict assignment `d[k] = v`: replace the value in place when the
key is present (keeping its position), append otherwise. -/
def objSet (kvs : List (String × JVal)) (k : String) (v : JVal) :
    List (String × JVal) :=
  if kvs.any (fun p => p.1 == k) then
    kvs.map (fun p => if p.1 == k then (k, v) else p)
  else kvs ++ [(k, v)]

/-! ## `backend/slim_mock_data.py` -/

/-- `slim_user_object` of `slim_mock_data.py`: extract minimal user
information from a nested user object; `None` (our `.null`) for falsy or
non-dict input, the `{data: {id, attributes}}` envelope unwrapped to
`{id, email, name}` (with `name or full_name` coalescing), an
already-simplified dict returned as-is. Calling `.get` on a non-dict
`attributes` value raises (`.error`). -/
def slim_user_object (user_obj : JVal) : Except String JVal :=
  if !user_obj.truthy || !user_obj.isDict then .ok .null
  else if (objLookup user_obj.fields "data").isSome then
    let user_data := pyGet user_obj.fields "data" .null
    if !user_data.truthy || !user_data.isDict then .ok .null
    else
      let user_attrs := pyGet user_data.fields "attributes" (.obj [])
      if user_attrs.isDict then
        let nameRaw := pyGet user_attrs.fields "name" .null
        let nameVal :=
          if nameRaw.truthy then nameRaw
          else pyGet user_attrs.fields "full_name" .null
        .ok (.obj [("id", pyGet user_data.fields "id" .null),
                   ("email", pyGet user_attrs.fields "email" .null),
                   ("name", nameVal)])
      else .error "AttributeError: attributes value has no get"
  else .ok user_obj

/-- `severity_container['attributes'].get('name')`: the `.get` raises on a
non-dict attributes value. -/
def severityNameOf (attrsVal : JVal) : Except String JVal :=
  if attrsVal.isDict then .ok (pyGet attrsVal.fields "name" .null)
  else .error "AttributeError: attributes value has no get"

/-- The fall-through of `extract_severity_name` once the `data` path did not
return: the top-level `attributes` check, then `None`. -/
def severityTopLevel (kvs : List (String × JVal)) : Except String JVal :=
  match objLookup kvs "attributes" with
  | some a => severityNameOf a
  | none => .ok .null

/-- `extract_severity_name` of `slim_mock_data.py`: falsy input gives `None`;
a string is returned as-is; a dict is unwrapped via `data.attributes.name`
when `data` is a dict containing `attributes`, else via top-level
`attributes.name` when present, else `None`; any other value gives `None`. -/
def extract_severity_name (severity_obj : JVal) : Except String JVal :=
  if !severity_obj.truthy then .ok .null
  else
    match severity_obj with
    | .str s => .ok (.str s)
    | .obj kvs =>
      match objLookup kvs "data" with
      | some sev_data =>
        if sev_data.isDict && (objLookup sev_data.fields "attributes").isSome
        then severityNameOf (pyGet sev_data.fields "attributes" .null)
        else severityTopLevel kvs
      | none => severityTopLevel kvs
    | _ => .ok .null

/-- `slim_incident` of `slim_mock_data.py`: a falsy or non-dict record is
returned unchanged; otherwise the fixed field list is assembled from the
record's `attributes` (severity resolved by `extract_severity_name`, the
four user references by `slim_user_object`), keys with `None` values are
pruned, and `{id, type, attributes}` is emitted. `attrs.get` on a non-dict
`attributes` value raises. -/
def slim_incident (incident : JVal) : Except String JVal :=
  if !incident.truthy || !incident.isDict then .ok incident
  else
    let kvs := incident.fields
    let attrs := pyGet kvs "attributes" (.obj [])
    if attrs.isDict then do
      let a := attrs.fields
      let sev ← extract_severity_name (pyGet a "severity" .null)
      let u1 ← slim_user_object (pyGet a "user" .null)
      let u2 ← slim_user_object (pyGet a "started_by" .null)
      let u3 ← slim_user_object (pyGet a "resolved_by" .null)
      let u4 ← slim_user_object (pyGet a "mitigated_by" .null)
      let slimAttrs : List (String × JVal) :=
        [("sequential_id", pyGet a "sequential_id" .null),
         ("title", pyGet a "title" .null),
         ("summary", pyGet a "summary" .null),
         ("status", pyGet a "status" .null),
         ("severity", sev),
         ("created_at", pyGet a "created_at" .null),
         ("started_at", pyGet a "started_at" .null),
         ("acknowledged_at", pyGet a "acknowledged_at" .null),
         ("mitigated_at", pyGet a "mitigated_at" .null),
         ("resolved_at", pyGet a "resolved_at" .null),
         ("user", u1),
         ("started_by", u2),
         ("resolved_by", u3),
         ("mitigated_by", u4),
         ("slack_channel_id", pyGet a "slack_channel_id" .null),
         ("slack_channel_name", pyGet a "slack_channel_name" .null),
         ("slack_channel_url", pyGet a "slack_channel_url" .null),
         ("slack_channel_deep_link", pyGet a "slack_channel_deep_link" .null)]
      let pruned := slimAttrs.filter (fun p => !(p.2 matches .null))
      .ok (.obj [("id", pyGet kvs "id" .null),
                 ("type", pyGet kvs "type" .null),
                 ("attributes", .obj pruned)])
    else .error "AttributeError: attributes value has no get"

/-- The list comprehension `[slim_incident(inc) for inc in incidents]`:
left-to-right, fail-fast. -/
def slimAll : List JVal → Except String (List JVal)
  | [] => .ok []
  | inc :: rest => do
    let s ← slim_incident inc
    let srest ← slimAll rest
    .ok (s :: srest)

/-- `slim_incidents` of `slim_mock_data.py`: a falsy (empty) list is returned
as-is, otherwise every incident is slimmed positionally (the size-reduction
printout is diagnostic only and carries no data effect). -/
def slim_incidents (incidents : List JVal) : Except String (List JVal) :=
  if incidents.isEmpty then .ok incidents
  else slimAll incidents

/-! ## `backend/app/services/demo_analysis_service.py` -/

/-- The module-level `_MOCK_DATA_CACHE` slot paired with a count of
underlying storage reads performed so far (for stating cache coherency). -/
structure CacheState where
  cache : Option JVal
  reads : Nat

/-- `_load_mock_data`: return the cached data when the slot is filled;
otherwise perform one storage read (`storage` is the file system's outcome:
the parsed JSON document, or an exception such as FileNotFoundError or a
parse error), fill the slot only on success, and re-raise any failure. -/
def _load_mock_data (storage : Except String JVal) (s : CacheState) :
    Except String JVal × CacheState :=
  match s.cache with
  | some d => (.ok d, s)
  | none =>
    match storage with
    | .ok d => (.ok d, { cache := some d, reads := s.reads + 1 })
    | .error e => (.error e, { s with reads := s.reads + 1 })

/-- `clear_mock_data_cache`: reset the slot to `None`. -/
def clear_mock_data_cache (s : CacheState) : CacheState :=
  { s with cache := none }

/-- `_load_mock_data` called `n` times in sequence against the same
storage. -/
def loadCalls (storage : Except String JVal) : Nat → CacheState → CacheState
  | 0, s => s
  | n + 1, s => loadCalls storage n (_load_mock_data storage s).2

/-- The `User` ORM row as the provisioner reads it. -/
structure User where
  id : Int
  email : String
  organization_id : Option Int

/-- The `Analysis` ORM row as the provisioner writes it (fields the service
never touches are omitted; `platform`, `time_range`, `config` and `results`
are JSON-valued columns). -/
structure Analysis where
  user_id : Int
  organization_id : Option Int
  rootly_integration_id : Option Int
  integration_name : String
  platform : JVal
  time_range : JVal
  status : String
  config : JVal
  results : JVal
  error_message : Option String
  completed_at : String

/-- The persistence interface's visible state: committed rows and the
session's pending (added, not yet committed) rows. -/
structure DB where
  committed : List Analysis
  pending : List Analysis

/-- `analysis.config.get('is_demo') is True`: Python `is True` holds only
for the boolean `True` itself (not `1`, not `"true"`). -/
def isPyTrue : JVal → Bool
  | .bool true => true
  | _ => false

/-- The per-record check of `_has_demo_analysis`:
`analysis.config and isinstance(analysis.config, dict)` and then
`analysis.config.get('is_demo') is True`. -/
def demoMarked (config : JVal) : Bool :=
  config.truthy && config.isDict && isPyTrue (pyGet config.fields "is_demo" .null)

/-- `_has_demo_analysis`: linear scan of the user's committed rows for one
whose config carries the demo marker. -/
def _has_demo_analysis (db : DB) (user_id : Int) : Bool :=
  (db.committed.filter (fun a => a.user_id == user_id)).any
    (fun a => demoMarked a.config)

/-- The record-construction step of `create_demo_analysis_for_new_user`:
`mock_data['analysis']` (KeyError / TypeError when absent or not a dict),
`original_analysis.get('config', {}).copy()` (fails when the config value is
not a dict), the three demo-marker keys injected, and the `Analysis` row
assembled with platform/time_range defaults and `status="completed"`. -/
def buildAnalysis (mock_data : JVal) (user : User) (now : String) :
    Except String Analysis :=
  match mock_data with
  | .obj mkvs =>
    match objLookup mkvs "analysis" with
    | none => .error "KeyError: analysis"
    | some original_analysis =>
      match original_analysis with
      | .obj okvs =>
        match pyGet okvs "config" (.obj []) with
        | .obj cfg0 =>
          let cfg1 := objSet cfg0 "is_demo" (.bool true)
          let cfg2 := objSet cfg1 "demo_created_at" (.str now)
          let cfg3 := objSet cfg2 "demo_note"
            (.str "This is a sample analysis to help you explore the platform")
          .ok { user_id := user.id
                organization_id := user.organization_id
                rootly_integration_id := none
                integration_name := "Demo Analysis"
                platform := pyGet okvs "platform" (.str "pagerduty")
                time_range := pyGet okvs "time_range" (.num 30)
                status := "completed"
                config := .obj cfg3
                results := pyGet okvs "results" .null
                error_message := none
                completed_at := now }
        | _ => .error "AttributeError: config value cannot be copied and indexed"
      | _ => .error "AttributeError: analysis value has no get"
  | _ => .error "TypeError: mock data is not a dict"

/-- The stage of `create_demo_analysis_for_new_user` at which an exception
is raised. -/
inductive Stage where
  | atQuery | atLoad | atBuild | atAdd | atCommit | atRefresh
deriving DecidableEq

/-- The failure switches of one provisioning call: the timestamp
`datetime.now()` returns, the outcome `_load_mock_data` produces, and
whether each persistence-interface call raises. -/
structure Env where
  now : String
  loadResult : Except String JVal
  queryFails : Bool
  addFails : Bool
  commitFails : Bool
  refreshFails : Bool
  rollbackFails : Bool

/-- `db.rollback()`: discard pending rows; when the rollback itself raises
the session is left as it was (committed rows are untouched either way). -/
def dbRollback (env : Env) (db : DB) : DB :=
  if env.rollbackFails then db else { db with pending := [] }

/-- The `try` body of `create_demo_analysis_for_new_user`: idempotency
check, template load, record build, `db.add`, `db.commit`, `db.refresh`.
An exception carries the stage it was raised at and the session state at
that point (`db.commit` either fully applies the pending rows or leaves
the committed rows untouched). -/
def provisionInner (env : Env) (db : DB) (user : User) :
    Except (Stage × DB) (Bool × DB) :=
  if env.queryFails then .error (.atQuery, db)
  else if _has_demo_analysis db user.id then .ok (false, db)
  else
    match env.loadResult with
    | .error _ => .error (.atLoad, db)
    | .ok mock_data =>
      match buildAnalysis mock_data user env.now with
      | .error _ => .error (.atBuild, db)
      | .ok analysis =>
        if env.addFails then .error (.atAdd, db)
        else
          let db1 : DB := { db with pending := db.pending ++ [analysis] }
          if env.commitFails then .error (.atCommit, db1)
          else
            let db2 : DB := { committed := db1.committed ++ db1.pending,
                              pending := [] }
            if env.refreshFails then .error (.atRefresh, db2)
            else .ok (true, db2)

/-- `create_demo_analysis_for_new_user`: the `try` body with the catch-all
handler — on any exception, attempt a rollback (swallowing a rollback
failure) and return `False`; never raise outward. -/
def create_demo_analysis_for_new_user (env : Env) (db : DB) (user : User) :
    Bool × DB :=
  match provisionInner env db user with
  | .ok r => r
  | .error (_, dbAt) => (false, dbRollback env dbAt)

/-- Number of committed rows of a user whose config carries the demo
marker. -/
def demoCount (rows : List Analysis) (user_id : Int) : Nat :=
  (rows.filter (fun a => a.user_id == user_id && demoMarked a.config)).length

/-! ## Concrete fixtures used by the scenario theorem and witnesses -/

/-- A minimal cached template: one analysis with config `{"foo": 1}`,
platform `"pagerduty"` and time_range `30` (the spec's scenario). -/
def mockGood : JVal :=
  .obj [("analysis", .obj [("config", .obj [("foo", .num 1)]),
                           ("platform", .str "pagerduty"),
                           ("time_range", .num 30)])]

/-- An environment where every step succeeds. -/
def envGood : Env :=
  { now := "2024-01-01T00:00:00", loadResult := .ok mockGood,
    queryFails := false, addFails := false, commitFails := false,
    refreshFails := false, rollbackFails := false }

/-- A fresh session over an empty store. -/
def dbEmpty : DB := { committed := [], pending := [] }

/-- A newly registered user. -/
def demoUser : User := { id := 1, email := "new@example.com", organization_id := none }

/-- An environment whose template load raises (file absent). -/
def envLoadFail : Env :=
  { envGood with loadResult := .error "FileNotFoundError" }

/-- The spec's field-pruning example: severity in the nested
`{data: {attributes: {name: "SEV1"}}}` envelope, all four user-reference
fields null. -/
def exIncident : JVal :=
  .obj [("id", .str "i1"), ("type", .str "incidents"),
        ("attributes", .obj
          [("severity", .obj [("data", .obj [("attributes",
              .obj [("name", .str "SEV1")])])]),
           ("user", .null), ("started_by", .null),
           ("resolved_by", .null), ("mitigated_by", .null)])]

def exSlimmed : JVal :=
  .obj [("id", .str "i1"), ("type", .str "incidents"),
        ("attributes", .obj [("severity", .str "SEV1")])]

/-! ## Theorems -/

theorem exceptBind_ok {α β : Type} (a : α) (f : α → Except String β) :
    (Except.ok a >>= f) = f a := rfl

theorem exceptBind_error {α β : Type} (e : String) (f : α → Except String β) :
    ((Except.error e : Except String α) >>= f) = .error e := rfl

theorem slimAll_spec (xs : List JVal) : ∀ (ys : List JVal), slimAll xs = .ok ys →
    ys.length = xs.length ∧
    ∀ i (hx : i < xs.length) (hy : i < ys.length),
      slim_incident (xs.get ⟨i, hx⟩) = .ok (ys.get ⟨i, hy⟩) := by
  induction xs with
  | nil =>
    intro ys h
    simp only [slimAll, Except.ok.injEq] at h
    subst h
    exact ⟨rfl, fun i hx hy => absurd hx (by simp)⟩
  | cons x xs ih =>
    intro ys h
    simp only [slimAll] at h
    cases hx0 : slim_incident x with
    | error e => rw [hx0, exceptBind_error] at h; exact absurd h (by simp)
    | ok s =>
      rw [hx0, exceptBind_ok] at h
      cases hrest : slimAll xs with
      | error e => rw [hrest, exceptBind_error] at h; exact absurd h (by simp)
      | ok srest =>
        rw [hrest, exceptBind_ok] at h
        obtain ⟨hlen, hpt⟩ := ih srest hrest
        cases h
        refine ⟨by simp [hlen], ?_⟩
        intro i hx hy
        match i with
        | 0 => simpa using hx0
        | j + 1 =>
          simp only [List.get_cons_succ]
          exact hpt j (by simp only [List.length_cons] at hx; omega)
            (by simp only [List.length_cons] at hy; omega)

theorem null_not_mem_pruned (L : List (String × JVal)) :
    JVal.null ∉ (L.filter (fun p => !(p.2 matches .null))).map Prod.snd := by
  intro hmem
  obtain ⟨p, hp, hp2⟩ := List.mem_map.1 hmem
  have h2 := (List.mem_filter.1 hp).2
  rw [hp2] at h2
  simp at h2



/-- C4: for every mapping-shaped raw incident record that slims successfully,
the attributes mapping of `slim_incident`'s output binds no key to null — a
field whose resolved value is absent is omitted entirely, so the key set is
data-dependent. -/
theorem c4_slim_attributes_no_null (v w : JVal) (l : List (String × JVal))
    (hd : v.isDict = true) (h : slim_incident v = .ok w)
    (hl : objLookup w.fields "attributes" = some (.obj l)) :
    JVal.null ∉ l.map Prod.snd := by
  obtain ⟨kvs, rfl⟩ : ∃ kvs, v = .obj kvs := by
    cases v <;> simp_all [JVal.isDict]
  by_cases hne : kvs.isEmpty = true
  · have hempty : kvs = [] := by simpa [List.isEmpty_iff] using hne
    subst hempty
    have hv : slim_incident (.obj []) = .ok (.obj []) := rfl
    rw [hv] at h
    cases h
    simp [JVal.fields, objLookup, List.find?] at hl
  · have heq : kvs.isEmpty = false := by simpa using hne
    cases hattrs : pyGet kvs "attributes" (JVal.obj []) with
    | null =>
      simp only [slim_incident, JVal.truthy, JVal.isDict, JVal.fields, heq, hattrs,
        Bool.not_false, Bool.not_true, Bool.or_false, Bool.false_or] at h
      simp at h
    | bool b =>
      simp only [slim_incident, JVal.truthy, JVal.isDict, JVal.fields, heq, hattrs,
        Bool.not_false, Bool.not_true, Bool.or_false, Bool.false_or] at h
      simp at h
    | num n =>
      simp only [slim_incident, JVal.truthy, JVal.isDict, JVal.fields, heq, hattrs,
        Bool.not_false, Bool.not_true, Bool.or_false, Bool.false_or] at h
      simp at h
    | str s =>
      simp only [slim_incident, JVal.truthy, JVal.isDict, JVal.fields, heq, hattrs,
        Bool.not_false, Bool.not_true, Bool.or_false, Bool.false_or] at h
      simp at h
    | arr es =>
      simp only [slim_incident, JVal.truthy, JVal.isDict, JVal.fields, heq, hattrs,
        Bool.not_false, Bool.not_true, Bool.or_false, Bool.false_or] at h
      simp at h
    | obj akvs =>
      simp only [slim_incident, JVal.truthy, JVal.isDict, JVal.fields, heq, hattrs,
        Bool.not_false, Bool.not_true, Bool.or_false, Bool.false_or, reduceIte] at h
      cases hsev : extract_severity_name (pyGet akvs "severity" .null) with
      | error e => rw [hsev, exceptBind_error] at h; exact absurd h (by simp)
      | ok sev =>
        rw [hsev, exceptBind_ok] at h
        cases hu1 : slim_user_object (pyGet akvs "user" .null) with
        | error e => rw [hu1, exceptBind_error] at h; exact absurd h (by simp)
        | ok u1 =>
          rw [hu1, exceptBind_ok] at h
          cases hu2 : slim_user_object (pyGet akvs "started_by" .null) with
          | error e => rw [hu2, exceptBind_error] at h; exact absurd h (by simp)
          | ok u2 =>
            rw [hu2, exceptBind_ok] at h
            cases hu3 : slim_user_object (pyGet akvs "resolved_by" .null) with
            | error e => rw [hu3, exceptBind_error] at h; exact absurd h (by simp)
            | ok u3 =>
              rw [hu3, exceptBind_ok] at h
              cases hu4 : slim_user_object (pyGet akvs "mitigated_by" .null) with
              | error e => rw [hu4, exceptBind_error] at h; exact absurd h (by simp)
              | ok u4 =>
                rw [hu4, exceptBind_ok] at h
                cases h
                simp only [JVal.fields] at hl
                simp [objLookup, List.find?] at hl
                subst hl
                exact null_not_mem_pruned _

theorem slim_user_not_dict (v : JVal) (hc : (!v.truthy || !v.isDict) = true) :
    slim_user_object v = .ok .null := by
  simp only [slim_user_object, hc, reduceIte]

theorem slim_user_flat (kvs : List (String × JVal)) (hne : kvs.isEmpty = false)
    (hdata : objLookup kvs "data" = none) :
    slim_user_object (.obj kvs) = .ok (.obj kvs) := by
  simp [slim_user_object, JVal.truthy, JVal.isDict, JVal.fields, hne, hdata]

theorem slim_user_data_falsy (kvs : List (String × JVal)) (d : JVal)
    (hne : kvs.isEmpty = false)
    (hdata : (objLookup kvs "data").isSome = true)
    (hvd : pyGet kvs "data" .null = d)
    (hd : (!d.truthy || !d.isDict) = true) :
    slim_user_object (.obj kvs) = .ok .null := by
  have h1 : (!(JVal.obj kvs).truthy || !(JVal.obj kvs).isDict) = false := by
    simp [JVal.truthy, JVal.isDict, hne]
  simp only [slim_user_object, JVal.fields, h1, hdata, hvd, hd]
  simp [JVal.truthy, JVal.isDict, hne, hd]

theorem slim_user_enveloped (kvs dkvs akvs : List (String × JVal))
    (hne : kvs.isEmpty = false)
    (hdata : (objLookup kvs "data").isSome = true)
    (hvd : pyGet kvs "data" .null = .obj dkvs)
    (hdne : dkvs.isEmpty = false)
    (hattr : pyGet dkvs "attributes" (.obj []) = .obj akvs) :
    slim_user_object (.obj kvs) =
      .ok (.obj [("id", pyGet dkvs "id" .null),
                 ("email", pyGet akvs "email" .null),
                 ("name", if (pyGet akvs "name" .null).truthy
                          then pyGet akvs "name" .null
                          else pyGet akvs "full_name" .null)]) := by
  have h1 : (!(JVal.obj kvs).truthy || !(JVal.obj kvs).isDict) = false := by
    simp [JVal.truthy, JVal.isDict, hne]
  have h2 : (!(JVal.obj dkvs).truthy || !(JVal.obj dkvs).isDict) = false := by
    simp [JVal.truthy, JVal.isDict, hdne]
  simp only [slim_user_object, JVal.fields, h1, hdata, hvd, h2, hattr, JVal.isDict]
  simp [JVal.truthy, hne, hdne]

theorem slim_user_enveloped_bad (kvs dkvs : List (String × JVal)) (bad : JVal)
    (hne : kvs.isEmpty = false)
    (hdata : (objLookup kvs "data").isSome = true)
    (hvd : pyGet kvs "data" .null = .obj dkvs)
    (hdne : dkvs.isEmpty = false)
    (hattr : pyGet dkvs "attributes" (.obj []) = bad)
    (hbad : bad.isDict = false) :
    slim_user_object (.obj kvs) =
      .error "AttributeError: attributes value has no get" := by
  have h1 : (!(JVal.obj kvs).truthy || !(JVal.obj kvs).isDict) = false := by
    simp [JVal.truthy, JVal.isDict, hne]
  have h2 : (!(JVal.obj dkvs).truthy || !(JVal.obj dkvs).isDict) = false := by
    simp [JVal.truthy, JVal.isDict, hdne]
  simp only [slim_user_object, JVal.fields, h1, hdata, hvd, h2, hattr, hbad]
  simp [JVal.truthy, hne, hdne, hbad]

theorem slim_user_idem (v w : JVal) (h : slim_user_object v = .ok w) :
    slim_user_object w = .ok w := by
  by_cases hc : (!v.truthy || !v.isDict) = true
  · rw [slim_user_not_dict v hc] at h
    cases h
    exact slim_user_not_dict _ (by simp [JVal.truthy, JVal.isDict])
  · obtain ⟨kvs, rfl⟩ : ∃ kvs, v = .obj kvs := by
      cases v <;> simp_all [JVal.isDict, JVal.truthy]
    have hne : kvs.isEmpty = false := by
      simp [JVal.truthy, JVal.isDict] at hc
      simpa using hc
    cases hdata : objLookup kvs "data" with
    | none =>
      rw [slim_user_flat kvs hne hdata] at h
      cases h
      exact slim_user_flat kvs hne hdata
    | some d =>
      have hds : (objLookup kvs "data").isSome = true := by rw [hdata]; rfl
      have hvd : pyGet kvs "data" .null = d := by simp [pyGet, hdata]
      by_cases hdc : (!d.truthy || !d.isDict) = true
      · rw [slim_user_data_falsy kvs d hne hds hvd hdc] at h
        cases h
        exact slim_user_not_dict _ (by simp [JVal.truthy, JVal.isDict])
      · obtain ⟨dkvs, rfl⟩ : ∃ dkvs, d = .obj dkvs := by
          cases d <;> simp_all [JVal.isDict, JVal.truthy]
        have hdne : dkvs.isEmpty = false := by
          simp [JVal.truthy, JVal.isDict] at hdc
          simpa using hdc
        cases hattrv : pyGet dkvs "attributes" (.obj []) with
        | null =>
          rw [slim_user_enveloped_bad kvs dkvs _ hne hds hvd hdne hattrv rfl] at h
          exact absurd h (by simp)
        | bool b =>
          rw [slim_user_enveloped_bad kvs dkvs _ hne hds hvd hdne hattrv rfl] at h
          exact absurd h (by simp)
        | num n =>
          rw [slim_user_enveloped_bad kvs dkvs _ hne hds hvd hdne hattrv rfl] at h
          exact absurd h (by simp)
        | str s =>
          rw [slim_user_enveloped_bad kvs dkvs _ hne hds hvd hdne hattrv rfl] at h
          exact absurd h (by simp)
        | arr es =>
          rw [slim_user_enveloped_bad kvs dkvs _ hne hds hvd hdne hattrv rfl] at h
          exact absurd h (by simp)
        | obj akvs =>
          rw [slim_user_enveloped kvs dkvs akvs hne hds hvd hdne hattrv] at h
          cases h
          exact slim_user_flat _ rfl (by simp [objLookup, List.find?])

/-- C7 counterexample: the claimed flat/nested equivalence fails for a falsy
non-null name. The flat input `{id: 5, email: "a@b.com", name: ""}` takes the
no-`data` branch and is returned unchanged with `name = ""`, while its
nested-form equivalent goes through `name or full_name`, where `"" or None`
coalesces to `None` — so the two slims differ. -/
theorem c7_falsy_name_counterexample :
    slim_user_object (.obj [("id", JVal.num 5), ("email", JVal.str "a@b.com"),
        ("name", JVal.str "")]) =
      .ok (.obj [("id", JVal.num 5), ("email", JVal.str "a@b.com"),
        ("name", JVal.str "")]) ∧
    slim_user_object (.obj [("data", JVal.obj [("id", JVal.num 5),
        ("attributes", JVal.obj [("email", JVal.str "a@b.com"),
          ("name", JVal.str "")])])]) =
      .ok (.obj [("id", JVal.num 5), ("email", JVal.str "a@b.com"),
        ("name", JVal.null)]) ∧
    (Except.ok (JVal.obj [("id", JVal.num 5), ("email", JVal.str "a@b.com"),
        ("name", JVal.str "")]) : Except String JVal) ≠
      .ok (.obj [("id", JVal.num 5), ("email", JVal.str "a@b.com"),
        ("name", JVal.null)]) :=
  ⟨rfl, rfl, by simp⟩

/-- C7 (amended): `slim_user_object` accepts both the nested
`{data: {id, attributes}}` envelope and the already-flat `{id, email, name}`
shape; a flat input slims identically to its nested-form equivalent whenever
its name value is truthy or null — for a falsy non-null name the flat form is
returned unchanged while the nested form coalesces the name to
`full_name`/`None`, so the outputs differ — and the function is idempotent:
applied to its own output it returns that output unchanged. -/
theorem c7_slim_user_shapes_idempotent :
    (∀ i e n : JVal, (n.truthy = true ∨ n = .null) →
      slim_user_object (.obj [("id", i), ("email", e), ("name", n)]) =
      slim_user_object (.obj [("data", .obj [("id", i),
        ("attributes", .obj [("email", e), ("name", n)])])])) ∧
    (∀ v w : JVal, slim_user_object v = .ok w → slim_user_object w = .ok w) := by
  constructor
  · intro i e n hn
    rw [slim_user_flat [("id", i), ("email", e), ("name", n)] rfl
          (by simp [objLookup, List.find?]),
        slim_user_enveloped
          [("data", .obj [("id", i), ("attributes", .obj [("email", e), ("name", n)])])]
          [("id", i), ("attributes", .obj [("email", e), ("name", n)])]
          [("email", e), ("name", n)] rfl (by simp [objLookup, List.find?])
          (by simp [pyGet, objLookup, List.find?]) rfl
          (by simp [pyGet, objLookup, List.find?])]
    rcases hn with ht | rfl
    · simp [pyGet, objLookup, List.find?, ht]
    · simp [pyGet, objLookup, List.find?, JVal.truthy]
  · exact slim_user_idem

/-- C6 counterexample: the claim that a plain string is returned as itself
fails at the empty string: `extract_severity_name` maps `""` to null (the
falsy guard fires before the string case), not to `""`. -/
theorem c6_empty_string_counterexample :
    extract_severity_name (JVal.str "") = .ok .null ∧
    (Except.ok JVal.null ≠ (Except.ok (JVal.str "") : Except String JVal)) := by
  refine ⟨rfl, fun hc => ?_⟩
  injection hc with h2
  exact JVal.noConfusion h2

/-- C6 (amended): `extract_severity_name` returns null for every falsy value
(including the empty string); a non-empty plain string as itself; for a
non-empty mapping, the inner name via the `data.attributes` path when `data`
is a mapping containing `attributes`, else via the flat top-level
`attributes` path when present, else null; and null for every other truthy
value. -/
theorem c6_extract_severity_amended : ∀ v : JVal,
    (v.truthy = false → extract_severity_name v = .ok .null) ∧
    (∀ s : String, v = .str s → s ≠ "" → extract_severity_name v = .ok (.str s)) ∧
    (∀ kvs dkvs av, v = .obj kvs → kvs ≠ [] →
      objLookup kvs "data" = some (.obj dkvs) →
      objLookup dkvs "attributes" = some av →
      extract_severity_name v = severityNameOf av) ∧
    (∀ kvs av, v = .obj kvs → kvs ≠ [] →
      (∀ d, objLookup kvs "data" = some d →
        d.isDict = false ∨ (objLookup d.fields "attributes") = none) →
      objLookup kvs "attributes" = some av →
      extract_severity_name v = severityNameOf av) ∧
    (∀ kvs, v = .obj kvs → kvs ≠ [] →
      (∀ d, objLookup kvs "data" = some d →
        d.isDict = false ∨ (objLookup d.fields "attributes") = none) →
      objLookup kvs "attributes" = none →
      extract_severity_name v = .ok .null) ∧
    (v.truthy = true → v.isStr = false → v.isDict = false →
      extract_severity_name v = .ok .null) := by
  intro v
  refine ⟨?_, ?_, ?_, ?_, ?_, ?_⟩
  · intro hf
    simp [extract_severity_name, hf]
  · rintro s rfl hs
    have he : s.isEmpty = false := by
      cases hx : s.isEmpty
      · rfl
      · exact absurd ((String.isEmpty_iff _).1 hx) hs
    simp [extract_severity_name, JVal.truthy, he]
  · rintro kvs dkvs av rfl hk hdata hattr
    have hne : kvs.isEmpty = false := by
      cases hx : kvs.isEmpty
      · rfl
      · exact absurd (List.isEmpty_iff.1 hx) hk
    simp only [extract_severity_name, JVal.truthy, hne, Bool.not_false, hdata,
      JVal.isDict, JVal.fields, hattr, Option.isSome_some, Bool.and_self, pyGet,
      Option.getD_some, reduceIte]
    simp
  · rintro kvs av rfl hk hnodata hattr
    have hne : kvs.isEmpty = false := by
      cases hx : kvs.isEmpty
      · rfl
      · exact absurd (List.isEmpty_iff.1 hx) hk
    cases hdata : objLookup kvs "data" with
    | none =>
      simp only [extract_severity_name, JVal.truthy, hne, Bool.not_false, hdata,
        severityTopLevel, hattr, reduceIte]
      simp [severityTopLevel, hattr]
    | some d =>
      have hcond : (d.isDict && (objLookup d.fields "attributes").isSome) = false := by
        rcases hnodata d hdata with hx | hx <;> simp [hx]
      simp only [extract_severity_name, JVal.truthy, hne, Bool.not_false, hdata, hcond,
        severityTopLevel, hattr, reduceIte]
      simp [severityTopLevel, hattr, hcond]
  · rintro kvs rfl hk hnodata hattr
    have hne : kvs.isEmpty = false := by
      cases hx : kvs.isEmpty
      · rfl
      · exact absurd (List.isEmpty_iff.1 hx) hk
    cases hdata : objLookup kvs "data" with
    | none =>
      simp only [extract_severity_name, JVal.truthy, hne, Bool.not_false, hdata,
        severityTopLevel, hattr, reduceIte]
      simp [severityTopLevel, hattr]
    | some d =>
      have hcond : (d.isDict && (objLookup d.fields "attributes").isSome) = false := by
        rcases hnodata d hdata with hx | hx <;> simp [hx]
      simp only [extract_severity_name, JVal.truthy, hne, Bool.not_false, hdata, hcond,
        severityTopLevel, hattr, reduceIte]
      simp [severityTopLevel, hattr, hcond]
  · intro ht hs hd
    cases v with
    | null => rfl
    | bool b => cases b <;> rfl
    | num n => simp [extract_severity_name]
    | arr es => simp [extract_severity_name]
    | str s => simp [JVal.isStr] at hs
    | obj kvs => simp [JVal.isDict] at hd

theorem find_set_self (k : String) (v : JVal) :
    ∀ (kvs : List (String × JVal)), kvs.any (fun p => p.1 == k) = true →
      objLookup (kvs.map (fun p => if p.1 == k then (k, v) else p)) k = some v := by
  intro kvs
  induction kvs with
  | nil => intro h; simp at h
  | cons p rest ih =>
    intro h
    rw [List.any_cons] at h
    by_cases hp : (p.1 == k) = true
    · simp [objLookup, List.find?, hp]
    · simp only [hp, Bool.false_or] at h
      simp only [List.map_cons, objLookup, List.find?, hp, if_false]
      simpa [objLookup, hp] using ih h

theorem find_append_self (k : String) (v : JVal) :
    ∀ (kvs : List (String × JVal)), kvs.any (fun p => p.1 == k) = false →
      objLookup (kvs ++ [(k, v)]) k = some v := by
  intro kvs
  induction kvs with
  | nil => intro _; simp [objLookup, List.find?]
  | cons p rest ih =>
    intro h
    rw [List.any_cons] at h
    have hp : (p.1 == k) = false := by
      cases hx : (p.1 == k)
      · rfl
      · rw [hx] at h; simp at h
    have h2 : rest.any (fun p => p.1 == k) = false := by
      rw [hp] at h; simpa using h
    simp only [List.cons_append, objLookup, List.find?, hp]
    simpa [objLookup] using ih h2

theorem objLookup_set_self (kvs : List (String × JVal)) (k : String) (v : JVal) :
    objLookup (objSet kvs k v) k = some v := by
  unfold objSet
  split
  · exact find_set_self k v kvs (by assumption)
  · rename_i hx
    refine find_append_self k v kvs ?_
    cases hb : kvs.any (fun p => p.1 == k)
    · rfl
    · exact absurd hb hx

theorem find_map_diff (k k' : String) (v : JVal) (hkk : (k' == k) = false) :
    ∀ kvs : List (String × JVal),
      objLookup (kvs.map (fun p => if p.1 == k' then (k', v) else p)) k =
        objLookup kvs k := by
  intro kvs
  induction kvs with
  | nil => rfl
  | cons p rest ih =>
    by_cases hp : (p.1 == k') = true
    · have hp1 : p.1 = k' := by simpa using hp
      have hpk : (p.1 == k) = false := by rw [hp1]; exact hkk
      simp only [List.map_cons, hp, if_true, objLookup, List.find?, hkk, hpk]
      simpa [objLookup] using ih
    · simp only [List.map_cons, hp, if_false, objLookup, List.find?]
      cases hx : (p.1 == k)
      · simpa [objLookup, hx] using ih
      · simp [hx]

theorem find_append_diff (k k' : String) (v : JVal) (hkk : (k' == k) = false) :
    ∀ kvs : List (String × JVal),
      objLookup (kvs ++ [(k', v)]) k = objLookup kvs k := by
  intro kvs
  induction kvs with
  | nil => simp [objLookup, List.find?, hkk]
  | cons p rest ih =>
    simp only [List.cons_append, objLookup, List.find?]
    cases hx : (p.1 == k)
    · simpa [objLookup, hx] using ih
    · simp

theorem objLookup_set_diff (kvs : List (String × JVal)) (k k' : String) (v : JVal)
    (hkk : (k' == k) = false) :
    objLookup (objSet kvs k' v) k = objLookup kvs k := by
  unfold objSet
  split
  · exact find_map_diff k k' v hkk kvs
  · exact find_append_diff k k' v hkk kvs

theorem objSet_ne_nil (kvs : List (String × JVal)) (k : String) (v : JVal) :
    objSet kvs k v ≠ [] := by
  unfold objSet
  split
  · rename_i hany
    intro hx
    rw [List.map_eq_nil_iff] at hx
    subst hx
    simp at hany
  · simp

theorem loadCalls_cached (storage : Except String JVal) (n : Nat) :
    ∀ (x : JVal) (r : Nat), loadCalls storage n ⟨some x, r⟩ = ⟨some x, r⟩ := by
  induction n with
  | zero => intro x r; rfl
  | succ m ih => intro x r; simpa [loadCalls, _load_mock_data] using ih x r

/-- C8: with the underlying storage read succeeding, N sequential
`_load_mock_data` calls perform at most one read; a call finding the slot
filled returns the cached value and reads nothing; after
`clear_mock_data_cache` the next call performs exactly one more read. -/
theorem c8_cache_single_read : ∀ (d : JVal) (n r : Nat) (c : Option JVal),
    (loadCalls (.ok d) n ⟨c, r⟩).reads ≤ r + 1 ∧
    (∀ x, _load_mock_data (.ok d) ⟨some x, r⟩ = (.ok x, ⟨some x, r⟩)) ∧
    _load_mock_data (.ok d) (clear_mock_data_cache ⟨c, r⟩) = (.ok d, ⟨some d, r + 1⟩) := by
  intro d n r c
  refine ⟨?_, fun x => rfl, rfl⟩
  cases c with
  | some x => rw [loadCalls_cached]; exact Nat.le_succ r
  | none =>
    cases n with
    | zero => exact Nat.le_succ r
    | succ m =>
      show (loadCalls (.ok d) m ⟨some d, r + 1⟩).reads ≤ r + 1
      rw [loadCalls_cached]

/-- C9: when the storage read fails, `_load_mock_data` re-raises the error to
its caller, the cache slot is left empty, and a subsequent call attempts the
storage read again. -/
theorem c9_load_failure_leaves_cache_empty : ∀ (e : String) (r : Nat),
    _load_mock_data (.error e) ⟨none, r⟩ = (.error e, ⟨none, r + 1⟩) ∧
    (loadCalls (.error e) 2 ⟨none, r⟩).reads = r + 2 := by
  intro e r
  exact ⟨rfl, rfl⟩

theorem isPyTrue_iff (x : JVal) : isPyTrue x = true ↔ x = .bool true := by
  cases x with
  | bool b => cases b <;> simp [isPyTrue]
  | _ => simp [isPyTrue]

theorem demoMarked_iff (config : JVal) :
    demoMarked config = true ↔
      ∃ kvs, config = .obj kvs ∧ kvs ≠ [] ∧
        objLookup kvs "is_demo" = some (.bool true) := by
  constructor
  · intro h
    cases config with
    | obj kvs =>
      simp only [demoMarked, JVal.truthy, JVal.isDict, JVal.fields, Bool.and_eq_true] at h
      obtain ⟨⟨h1, _⟩, h3⟩ := h
      refine ⟨kvs, rfl, by simpa using h1, ?_⟩
      cases hl : objLookup kvs "is_demo" with
      | none => rw [pyGet, hl] at h3; simp [isPyTrue] at h3
      | some y =>
        rw [pyGet, hl] at h3
        simp only [Option.getD_some] at h3
        rw [(isPyTrue_iff y).1 h3]
    | _ => simp [demoMarked, JVal.truthy, JVal.isDict] at h
  · rintro ⟨kvs, rfl, hne, hl⟩
    have hke : kvs.isEmpty = false := by
      cases hx : kvs.isEmpty
      · rfl
      · exact absurd (List.isEmpty_iff.1 hx) hne
    simp [demoMarked, JVal.truthy, JVal.isDict, JVal.fields, pyGet, hl, isPyTrue, hke]

/-- C10: `_has_demo_analysis` returns true exactly when some committed record
of the user has a config that is a non-empty mapping binding `is_demo` to
precisely the boolean `true`; a missing or non-mapping config, or a marker
that is truthy but not the boolean `true` (such as `1` or `"true"`), never
trips the guard. -/
theorem c10_guard_exact_boolean_marker : ∀ (db : DB) (uid : Int),
    _has_demo_analysis db uid = true ↔
      ∃ a, a ∈ db.committed ∧ a.user_id = uid ∧
        ∃ kvs, a.config = .obj kvs ∧ kvs ≠ [] ∧
          objLookup kvs "is_demo" = some (.bool true) := by
  intro db uid
  unfold _has_demo_analysis
  rw [List.any_eq_true]
  constructor
  · rintro ⟨a, ha, hm⟩
    have hmem := List.mem_filter.1 ha
    exact ⟨a, hmem.1, by simpa using hmem.2, (demoMarked_iff _).1 hm⟩
  · rintro ⟨a, ha, hu, hkvs⟩
    exact ⟨a, List.mem_filter.2 ⟨ha, by simpa using hu⟩, (demoMarked_iff _).2 hkvs⟩

theorem dbRollback_committed (env : Env) (d : DB) :
    (dbRollback env d).committed = d.committed := by
  unfold dbRollback
  split <;> rfl

theorem dbRollback_nopending (env : Env) (c : List Analysis) :
    dbRollback env ⟨c, []⟩ = ⟨c, []⟩ := by
  unfold dbRollback
  split <;> rfl

theorem provisionInner_error_committed (env : Env) (db : DB) (user : User)
    (st : Stage) (dbAt : DB)
    (herr : provisionInner env db user = .error (st, dbAt))
    (hst : st ≠ Stage.atRefresh) :
    dbAt.committed = db.committed := by
  cases hq : env.queryFails with
  | true =>
    simp [provisionInner, hq] at herr
    rw [← herr.2]
  | false =>
    cases hguard : _has_demo_analysis db user.id with
    | true => simp [provisionInner, hq, hguard] at herr
    | false =>
      cases hload : env.loadResult with
      | error e =>
        simp [provisionInner, hq, hguard, hload] at herr
        rw [← herr.2]
      | ok mock =>
        cases hbuild : buildAnalysis mock user env.now with
        | error e2 =>
          simp [provisionInner, hq, hguard, hload, hbuild] at herr
          rw [← herr.2]
        | ok analysis =>
          cases hadd : env.addFails with
          | true =>
            simp [provisionInner, hq, hguard, hload, hbuild, hadd] at herr
            rw [← herr.2]
          | false =>
            cases hcommit : env.commitFails with
            | true =>
              simp [provisionInner, hq, hguard, hload, hbuild, hadd, hcommit] at herr
              rw [← herr.2]
            | false =>
              cases hrefresh : env.refreshFails with
              | true =>
                simp [provisionInner, hq, hguard, hload, hbuild, hadd, hcommit,
                  hrefresh] at herr
                exact absurd herr.1.symm hst
              | false =>
                simp [provisionInner, hq, hguard, hload, hbuild, hadd, hcommit,
                  hrefresh] at herr

theorem provisionInner_ok_true (env : Env) (db : DB) (user : User) (db1 : DB)
    (h : provisionInner env db user = .ok (true, db1)) :
    _has_demo_analysis db user.id = false ∧
    ∃ mock analysis, env.loadResult = .ok mock ∧
      buildAnalysis mock user env.now = .ok analysis ∧
      db1 = ⟨db.committed ++ (db.pending ++ [analysis]), []⟩ := by
  cases hq : env.queryFails with
  | true => simp [provisionInner, hq] at h
  | false =>
    cases hguard : _has_demo_analysis db user.id with
    | true => simp [provisionInner, hq, hguard] at h
    | false =>
      cases hload : env.loadResult with
      | error e => simp [provisionInner, hq, hguard, hload] at h
      | ok mock =>
        cases hbuild : buildAnalysis mock user env.now with
        | error e2 => simp [provisionInner, hq, hguard, hload, hbuild] at h
        | ok analysis =>
          cases hadd : env.addFails with
          | true => simp [provisionInner, hq, hguard, hload, hbuild, hadd] at h
          | false =>
            cases hcommit : env.commitFails with
            | true =>
              simp [provisionInner, hq, hguard, hload, hbuild, hadd, hcommit] at h
            | false =>
              cases hrefresh : env.refreshFails with
              | true =>
                simp [provisionInner, hq, hguard, hload, hbuild, hadd, hcommit,
                  hrefresh] at h
              | false =>
                simp only [provisionInner, hq, hguard, hload, hbuild, hadd, hcommit,
                  hrefresh, Bool.false_eq_true, if_false, ite_false] at h
                refine ⟨rfl, mock, analysis, rfl, hbuild, ?_⟩
                simp at h
                exact h.symm

/-- C2: `create_demo_analysis_for_new_user` never raises outward. When any of
the listed steps (idempotency check, template load, record build, insert,
commit) raises, it attempts a rollback — swallowing any rollback failure,
since `env.rollbackFails` is unconstrained — and returns false with the
committed rows unchanged (zero new rows persisted); and it returns true only
when the whole body succeeded. -/
theorem c2_provision_failure_boundary : ∀ (env : Env) (db : DB) (user : User),
    (∀ st dbAt, provisionInner env db user = .error (st, dbAt) →
      st ≠ Stage.atRefresh →
      create_demo_analysis_for_new_user env db user = (false, dbRollback env dbAt) ∧
      (dbRollback env dbAt).committed = db.committed) ∧
    (∀ r, create_demo_analysis_for_new_user env db user = r → r.1 = true →
      provisionInner env db user = .ok r) := by
  intro env db user
  constructor
  · intro st dbAt herr hst
    refine ⟨?_, ?_⟩
    · unfold create_demo_analysis_for_new_user
      rw [herr]
    · rw [dbRollback_committed]
      exact provisionInner_error_committed env db user st dbAt herr hst
  · intro r hr htrue
    unfold create_demo_analysis_for_new_user at hr
    cases hpi : provisionInner env db user with
    | ok r0 =>
      rw [hpi] at hr
      simp at hr
      subst hr
      rfl
    | error p =>
      obtain ⟨st0, db0⟩ := p
      rw [hpi] at hr
      simp at hr
      rw [← hr] at htrue
      simp at htrue

theorem buildAnalysis_demoMarked (mock : JVal) (user : User) (now : String)
    (a : Analysis) (h : buildAnalysis mock user now = .ok a) :
    a.user_id = user.id ∧ demoMarked a.config = true := by
  cases mock with
  | obj mkvs =>
    cases hoa : objLookup mkvs "analysis" with
    | none => simp [buildAnalysis, hoa] at h
    | some oa =>
      cases oa with
      | obj okvs =>
        cases hcfg : pyGet okvs "config" (.obj []) with
        | obj cfg0 =>
          simp only [buildAnalysis, hoa, hcfg] at h
          injection h with h2
          subst h2
          refine ⟨rfl, ?_⟩
          rw [demoMarked_iff]
          refine ⟨_, rfl, objSet_ne_nil _ _ _, ?_⟩
          rw [objLookup_set_diff _ _ _ _ (by rfl),
              objLookup_set_diff _ _ _ _ (by rfl),
              objLookup_set_self]
        | _ => simp [buildAnalysis, hoa, hcfg] at h
      | _ => simp [buildAnalysis, hoa] at h
  | _ => simp [buildAnalysis] at h

theorem create_true_inner : ∀ (env : Env) (db : DB) (user : User),
    (create_demo_analysis_for_new_user env db user).1 = true →
    provisionInner env db user =
      .ok (true, (create_demo_analysis_for_new_user env db user).2) := by
  intro env db user h
  cases hpi : provisionInner env db user with
  | ok r0 =>
    obtain ⟨b, db1⟩ := r0
    unfold create_demo_analysis_for_new_user at h ⊢
    rw [hpi] at h ⊢
    simp at h ⊢
    exact h
  | error p =>
    obtain ⟨st0, db0⟩ := p
    unfold create_demo_analysis_for_new_user at h
    rw [hpi] at h
    simp at h

/-- C1: from a fresh session holding no demo-marked record for the user, if
the first provisioning call returns true then exactly one committed record
of the user carries `is_demo = true`, and a second call — under any
environment — returns false and leaves the store unchanged, so at most one
demo-marked record per user ever exists. -/
theorem c1_demo_provision_idempotent (env1 env2 : Env) (db : DB) (user : User)
    (hpend : db.pending = [])
    (hzero : demoCount db.committed user.id = 0)
    (h1 : (create_demo_analysis_for_new_user env1 db user).1 = true) :
    demoCount (create_demo_analysis_for_new_user env1 db user).2.committed user.id = 1 ∧
    create_demo_analysis_for_new_user env2
        (create_demo_analysis_for_new_user env1 db user).2 user =
      (false, (create_demo_analysis_for_new_user env1 db user).2) := by
  have hinner := create_true_inner env1 db user h1
  obtain ⟨hguard, mock, analysis, hload, hbuild, hdb1⟩ :=
    provisionInner_ok_true env1 db user _ hinner
  obtain ⟨huid, hmark⟩ := buildAnalysis_demoMarked mock user env1.now analysis hbuild
  rw [hpend] at hdb1
  constructor
  · rw [hdb1]
    unfold demoCount at hzero ⊢
    rw [List.nil_append, List.filter_append, List.length_append, hzero]
    simp [huid, hmark]
  · have hguard2 :
        _has_demo_analysis (create_demo_analysis_for_new_user env1 db user).2 user.id
          = true := by
      rw [hdb1]
      unfold _has_demo_analysis
      rw [List.any_eq_true]
      refine ⟨analysis, ?_, hmark⟩
      rw [List.mem_filter]
      refine ⟨by simp, by simp [huid]⟩
    cases hq2 : env2.queryFails with
    | true =>
      have hstep : provisionInner env2 (create_demo_analysis_for_new_user env1 db user).2 user
          = .error (.atQuery, (create_demo_analysis_for_new_user env1 db user).2) := by
        simp [provisionInner, hq2]
      show (match provisionInner env2
              (create_demo_analysis_for_new_user env1 db user).2 user with
            | .ok r => r
            | .error (_, dbAt) => (false, dbRollback env2 dbAt)) =
          (false, (create_demo_analysis_for_new_user env1 db user).2)
      simp only [hstep]
      rw [hdb1, dbRollback_nopending]
    | false =>
      have hstep : provisionInner env2 (create_demo_analysis_for_new_user env1 db user).2 user
          = .ok (false, (create_demo_analysis_for_new_user env1 db user).2) := by
        simp [provisionInner, hq2, hguard2]
      show (match provisionInner env2
              (create_demo_analysis_for_new_user env1 db user).2 user with
            | .ok r => r
            | .error (_, dbAt) => (false, dbRollback env2 dbAt)) =
          (false, (create_demo_analysis_for_new_user env1 db user).2)
      simp only [hstep]

/-- C3: `slim_incidents` is a 1:1 positional map — a successful run on a
K-element list yields a K-element list whose i-th element is `slim_incident`
of the i-th input; it never filters or reorders. -/
theorem c3_slim_incidents_pointwise (xs ys : List JVal) (h : slim_incidents xs = .ok ys) :
    ys.length = xs.length ∧
    ∀ i (hx : i < xs.length) (hy : i < ys.length),
      slim_incident (xs.get ⟨i, hx⟩) = .ok (ys.get ⟨i, hy⟩) := by
  unfold slim_incidents at h
  split at h
  · rename_i hempty
    have hx0 : xs = [] := List.isEmpty_iff.1 hempty
    subst hx0
    injection h with h2
    subst h2
    exact ⟨rfl, fun i hx _ => absurd hx (by simp)⟩
  · exact slimAll_spec xs ys h

/-- C5: with template config `{"foo": 1}`, platform `"pagerduty"` and
time_range `30`, the record built and persisted has `config` binding
`is_demo` to `True` and `foo` to `1`, platform `"pagerduty"`, time_range
`30`, status `"completed"`, and a null `rootly_integration_id`. -/
theorem c5_demo_record_scenario :
    (create_demo_analysis_for_new_user envGood dbEmpty demoUser).1 = true ∧
    ((create_demo_analysis_for_new_user envGood dbEmpty demoUser).2.committed.map
      (fun a => (pyGet a.config.fields "is_demo" .null,
                 pyGet a.config.fields "foo" .null,
                 a.platform, a.time_range, a.status, a.rootly_integration_id))) =
      [(.bool true, .num 1, .str "pagerduty", .num 30, "completed", none)] :=
  ⟨rfl, rfl⟩

/-- Witness for C1 at the concrete fixture: both calls under the
all-successful environment. -/
theorem c1_demo_provision_idempotent_witness :
    demoCount (create_demo_analysis_for_new_user envGood dbEmpty demoUser).2.committed
        demoUser.id = 1 ∧
    create_demo_analysis_for_new_user envGood
        (create_demo_analysis_for_new_user envGood dbEmpty demoUser).2 demoUser =
      (false, (create_demo_analysis_for_new_user envGood dbEmpty demoUser).2) :=
  c1_demo_provision_idempotent envGood envGood dbEmpty demoUser rfl rfl rfl

/-- Witness for C3 at the concrete one-element list. -/
theorem c3_slim_incidents_pointwise_witness :
    ([exSlimmed].length = [exIncident].length) ∧
    ∀ i (hx : i < [exIncident].length) (hy : i < [exSlimmed].length),
      slim_incident ([exIncident].get ⟨i, hx⟩) = .ok ([exSlimmed].get ⟨i, hy⟩) :=
  c3_slim_incidents_pointwise [exIncident] [exSlimmed] rfl

/-- Witness for C4 at the spec's field-pruning example: the one surviving
attribute is `severity`, bound to `"SEV1"`, and it is not null. -/
theorem c4_slim_attributes_no_null_witness :
    JVal.null ∉ [("severity", JVal.str "SEV1")].map Prod.snd :=
  c4_slim_attributes_no_null exIncident exSlimmed [("severity", JVal.str "SEV1")] rfl rfl rfl

/-- Witness for C2 at a concrete failing input: the template load raises
(file absent), the call returns false and commits nothing. -/
theorem c2_provision_failure_boundary_witness :
    create_demo_analysis_for_new_user envLoadFail dbEmpty demoUser =
      (false, dbRollback envLoadFail dbEmpty) ∧
    (dbRollback envLoadFail dbEmpty).committed = dbEmpty.committed :=
  (c2_provision_failure_boundary envLoadFail dbEmpty demoUser).1 Stage.atLoad dbEmpty rfl
    (fun h => Stage.noConfusion h)

/-- Witness for the amended C6 at a concrete non-empty string. -/
theorem c6_extract_severity_amended_witness :
    extract_severity_name (JVal.str "SEV2") = .ok (.str "SEV2") :=
  (c6_extract_severity_amended (JVal.str "SEV2")).2.1 "SEV2" rfl (by decide)

/-- Witness for C7 at the spec's concrete flat/nested pair. -/
theorem c7_slim_user_shapes_idempotent_witness :
    slim_user_object (.obj [("id", JVal.num 5), ("email", JVal.str "a@b.com"),
      ("name", JVal.str "A")]) =
    slim_user_object (.obj [("data", JVal.obj [("id", JVal.num 5),
      ("attributes", JVal.obj [("email", JVal.str "a@b.com"),
        ("name", JVal.str "A")])])]) :=
  c7_slim_user_shapes_idempotent.1 (JVal.num 5) (JVal.str "a@b.com") (JVal.str "A")
    (Or.inl rfl)

